import Mathlib

/-!
Shallow embedding of the user-directory engine of this repository
(`src/user_service.py` together with the pydantic models of `src/models.py`),
and proofs of the frozen claims about it.

Modelling conventions:
* The Python `dict[int, User]` (insertion ordered, keys unique) is modelled as
  a `List User` in insertion order; the dict key always equals the record's
  `id` field in the source, so the key is not duplicated in the model.
* A Python `ValueError` raise site becomes an `Except.error` carrying a
  constructor named after the raised message; `SvcErr.message` recovers the
  exact message string of the source.
* pydantic model construction is explicit: `UserData.construct` receives one
  `Option` per keyword argument and fails (pydantic `ValidationError`, itself
  a `ValueError` subclass) when a required field is missing, exactly as
  pydantic does for `class UserData(BaseModel)` whose three fields `id`,
  `username`, `email` have no defaults.
* Mutating operations return the post-call state as the second component of
  the result, so error paths make the resulting state explicit.
* Python string operations are modelled for the ASCII inputs the engine is
  exercised with: `str.strip()` strips the ASCII whitespace characters,
  `str.lower()` lowers A-Z, `a in b` is substring containment, and list
  slicing `l[start:stop]` follows CPython's index clamping.
-/

deriving instance DecidableEq for Except

/-- `src/models.py` internal `User` model: id, username, email, password. -/
structure User where
  id : Nat
  username : String
  email : String
  password : String
deriving DecidableEq, Repr

/-- `src/models.py` response model `UserData`: three required fields
`id`, `username`, `email` (no defaults, no `Optional`). -/
structure UserData where
  id : Nat
  username : String
  email : String
deriving DecidableEq, Repr

/-- `src/models.py` response model `UserListData`: `total` and `list`. -/
structure UserListData where
  total : Nat
  list : List UserData
deriving DecidableEq, Repr

/-- The errors raised by `src/user_service.py` (each a Python `ValueError`
with the message given by `SvcErr.message`) plus the pydantic
`ValidationError` raised when a required model field is missing, which in
Python is also a `ValueError` subclass. -/
inductive SvcErr where
  | usernameRequired
  | emailRequired
  | passwordRequired
  | passwordTooShort
  | usernameExists
  | emailExists
  | userNotFound
  | missingField (model field : String)
deriving DecidableEq, Repr

/-- The exact message string of each raise site in `src/user_service.py`
(for `missingField`, the field named by the pydantic error). -/
def SvcErr.message : SvcErr → String
  | .usernameRequired => "Username is required"
  | .emailRequired => "Email is required"
  | .passwordRequired => "Password is required"
  | .passwordTooShort => "Password must be at least 6 characters long"
  | .usernameExists => "Username already exists"
  | .emailExists => "Email already exists"
  | .userNotFound => "User not found"
  | .missingField model field => "1 validation error for " ++ model ++ ": " ++ field ++ " field required"

/-- pydantic construction of `UserData`: one `Option` per keyword argument of
the call site; a missing required field raises `ValidationError`. -/
def UserData.construct (i : Option Nat) (u : Option String) (e : Option String) :
    Except SvcErr UserData :=
  match i, u, e with
  | some i, some u, some e => .ok ⟨i, u, e⟩
  | none, _, _ => .error (.missingField "UserData" "id")
  | _, none, _ => .error (.missingField "UserData" "username")
  | _, _, none => .error (.missingField "UserData" "email")

/-- The ASCII whitespace characters stripped by Python `str.strip()`. -/
def isPySpace (c : Char) : Bool :=
  c = ' ' || c = '\t' || c = '\n' || c = '\r' || c = '\x0b' || c = '\x0c'

/-- Python `str.strip()` on ASCII input: drop leading and trailing
whitespace. -/
def pyStrip (s : String) : String :=
  ⟨((s.data.dropWhile isPySpace).reverse.dropWhile isPySpace).reverse⟩

/-- `needle.isInfixOf hay` as a Boolean on character lists. -/
def listInfix : List Char → List Char → Bool
  | needle, [] => needle.isEmpty
  | needle, c :: t => needle.isPrefixOf (c :: t) || listInfix needle t

/-- Python `needle in hay` for strings: substring containment. -/
def pyIn (needle hay : String) : Bool :=
  listInfix needle.data hay.data

/-- Python `str.lower()` on ASCII input, character by character. -/
def pyLower (s : String) : String :=
  ⟨s.data.map Char.toLower⟩

/-- CPython slice-index clamping for a sequence of length `n`. -/
def pySliceIndex (n : Nat) (i : Int) : Nat :=
  if i < 0 then (max (i + n) 0).toNat else min i.toNat n

/-- CPython list slicing `l[start:stop]` (step 1). -/
def pySlice (l : List α) (start stop : Int) : List α :=
  (l.take (pySliceIndex l.length stop)).drop (pySliceIndex l.length start)

/-- Python dict assignment `d[u.id] = u` on the insertion-ordered model:
replace in place when the key is present, else append. -/
def dictInsert (l : List User) (u : User) : List User :=
  if l.any (fun v => v.id == u.id) then
    l.map (fun v => if v.id == u.id then u else v)
  else
    l ++ [u]

/-- `src/user_service.py` `UserService` state: the insertion-ordered user
map and the `next_id` counter. -/
structure UserService where
  users : List User
  next_id : Nat
deriving DecidableEq, Repr

/-- The five seed records of `UserService.__init__` / `reset_test_data`. -/
def seedUsers : List User :=
  [⟨1, "test", "t@x.com", "123456"⟩,
   ⟨2, "john_doe", "john@example.com", "password123"⟩,
   ⟨3, "jane_smith", "jane@example.com", "securepass"⟩,
   ⟨4, "admin", "admin@company.com", "admin123"⟩,
   ⟨5, "demo_user", "demo@test.com", "demo123"⟩]

/-- The state built by `UserService.__init__`: seed records, counter 6. -/
def initService : UserService :=
  { users := seedUsers, next_id := 6 }

/-- `UserService.create_user`. Validation in source order; on passing all
checks the record is inserted and the counter incremented, and only then is
the `UserData(id=..., username=...)` response constructed — without the
`email` argument, exactly as in the source. -/
def create_user (s : UserService) (username email password : String) :
    Except SvcErr UserData × UserService :=
  if username == "" || pyStrip username == "" then
    (.error .usernameRequired, s)
  else if email == "" || pyStrip email == "" then
    (.error .emailRequired, s)
  else if password == "" || pyStrip password == "" then
    (.error .passwordRequired, s)
  else if password.length < 6 then
    (.error .passwordTooShort, s)
  else if s.users.any (fun u => u.username == username) then
    (.error .usernameExists, s)
  else if s.users.any (fun u => u.email == email) then
    (.error .emailExists, s)
  else
    let new_user : User := ⟨s.next_id, username, email, password⟩
    let s' : UserService := ⟨dictInsert s.users new_user, s.next_id + 1⟩
    (UserData.construct (some new_user.id) (some new_user.username) none, s')

/-- `UserService.get_user_by_id`: membership test then lookup, returning the
full `UserData(id, username, email)` projection. -/
def get_user_by_id (s : UserService) (user_id : Nat) : Except SvcErr UserData :=
  match s.users.find? (fun u => u.id == user_id) with
  | none => .error .userNotFound
  | some user => UserData.construct (some user.id) (some user.username) (some user.email)

/-- `UserService.update_user_email`: NotFound when absent; conflict when any
other record (key different from `user_id`) holds the same email; else
overwrite the target record's email in place. -/
def update_user_email (s : UserService) (user_id : Nat) (email : String) :
    Except SvcErr Unit × UserService :=
  if !(s.users.any (fun u => u.id == user_id)) then
    (.error .userNotFound, s)
  else if s.users.any (fun u => u.id != user_id && u.email == email) then
    (.error .emailExists, s)
  else
    (.ok (), { s with users := s.users.map (fun u => if u.id == user_id then { u with email := email } else u) })

/-- `UserService.delete_user`: NotFound when absent, else remove the entry. -/
def delete_user (s : UserService) (user_id : Nat) :
    Except SvcErr Unit × UserService :=
  if !(s.users.any (fun u => u.id == user_id)) then
    (.error .userNotFound, s)
  else
    (.ok (), { s with users := s.users.filter (fun u => u.id != user_id) })

/-- The keyword filter of `UserService.get_users_list`: when the keyword is
truthy (present and non-empty), keep the users whose lowered username or
lowered email contains the lowered keyword. -/
def filteredUsers (s : UserService) (keyword : Option String) : List User :=
  match keyword with
  | some kw =>
      if kw == "" then s.users
      else s.users.filter (fun u =>
        pyIn (pyLower kw) (pyLower u.username) || pyIn (pyLower kw) (pyLower u.email))
  | none => s.users

/-- `UserService.get_users_list`: keyword filter, `total` before pagination,
slice `[(page-1)*size : (page-1)*size + size]`, project to `UserData`. -/
def get_users_list (s : UserService) (page size : Int) (keyword : Option String) :
    UserListData :=
  let filtered_users := filteredUsers s keyword
  let total := filtered_users.length
  let start_index := (page - 1) * size
  let end_index := start_index + size
  let paginated_users := pySlice filtered_users start_index end_index
  { total := total,
    list := paginated_users.map (fun u => ⟨u.id, u.username, u.email⟩) }

/-- `UserService.reset_test_data`: restore the seed records and counter 6. -/
def reset_test_data (_s : UserService) : UserService :=
  initService

/-- One engine operation, for reasoning about call sequences. -/
inductive Op where
  | create (username email password : String)
  | get (user_id : Nat)
  | updateEmail (user_id : Nat) (email : String)
  | delete (user_id : Nat)
  | list (page size : Int) (keyword : Option String)
  | reset
deriving DecidableEq, Repr

/-- The state after one operation (outputs discarded). -/
def applyOp (s : UserService) : Op → UserService
  | .create u e p => (create_user s u e p).2
  | .get _ => s
  | .updateEmail user_id e => (update_user_email s user_id e).2
  | .delete user_id => (delete_user s user_id).2
  | .list _ _ _ => s
  | .reset => reset_test_data s

/-- The state after a sequence of operations. -/
def runOps (s : UserService) : List Op → UserService
  | [] => s
  | op :: rest => runOps (applyOp s op) rest

/-- The identifiers of the live records. -/
def idsOf (s : UserService) : List Nat :=
  s.users.map User.id

/-- Every live identifier is below the counter. -/
def IdBound (s : UserService) : Prop :=
  ∀ u ∈ s.users, u.id < s.next_id

/-- No two live records share an identifier. -/
def NoDupIds (s : UserService) : Prop :=
  s.users.Pairwise (fun a b => a.id ≠ b.id)

/-- No two live records share a username (case-sensitive). -/
def NoDupUsernames (s : UserService) : Prop :=
  s.users.Pairwise (fun a b => a.username ≠ b.username)

/-- No two live records share an email (case-sensitive). -/
def NoDupEmails (s : UserService) : Prop :=
  s.users.Pairwise (fun a b => a.email ≠ b.email)

/-- The combined engine invariant used in the preservation proofs. -/
def EngineInv (s : UserService) : Prop :=
  IdBound s ∧ NoDupIds s ∧ NoDupUsernames s ∧ NoDupEmails s

instance (s : UserService) : Decidable (IdBound s) :=
  decidable_of_iff (∀ u ∈ s.users, u.id < s.next_id) Iff.rfl

instance (s : UserService) : Decidable (NoDupIds s) :=
  decidable_of_iff (s.users.Pairwise fun (a b : User) => a.id ≠ b.id) Iff.rfl

instance (s : UserService) : Decidable (NoDupUsernames s) :=
  decidable_of_iff (s.users.Pairwise fun (a b : User) => a.username ≠ b.username) Iff.rfl

instance (s : UserService) : Decidable (NoDupEmails s) :=
  decidable_of_iff (s.users.Pairwise fun (a b : User) => a.email ≠ b.email) Iff.rfl

instance (s : UserService) : Decidable (EngineInv s) :=
  decidable_of_iff (IdBound s ∧ NoDupIds s ∧ NoDupUsernames s ∧ NoDupEmails s) Iff.rfl

/-! ### Helper lemmas about the individual branches of the operations -/

theorem pyStrip_empty : pyStrip "" = "" := rfl

theorem requiredCheck_eq_true {x : String} (h : pyStrip x = "") :
    (x == "" || pyStrip x == "") = true := by
  simp [h]

theorem requiredCheck_eq_false {x : String} (h : pyStrip x ≠ "") :
    (x == "" || pyStrip x == "") = false := by
  have hx : x ≠ "" := by
    intro hxe
    subst hxe
    exact h pyStrip_empty
  simp [hx, h]

theorem create_user_usernameRequired (s : UserService) (u e p : String)
    (h : pyStrip u = "") :
    create_user s u e p = (.error .usernameRequired, s) := by
  simp [create_user, requiredCheck_eq_true h]

theorem create_user_emailRequired (s : UserService) (u e p : String)
    (hu : pyStrip u ≠ "") (he : pyStrip e = "") :
    create_user s u e p = (.error .emailRequired, s) := by
  simp [create_user, requiredCheck_eq_false hu, requiredCheck_eq_true he]

theorem create_user_passwordRequired (s : UserService) (u e p : String)
    (hu : pyStrip u ≠ "") (he : pyStrip e ≠ "") (hp : pyStrip p = "") :
    create_user s u e p = (.error .passwordRequired, s) := by
  simp [create_user, requiredCheck_eq_false hu, requiredCheck_eq_false he,
    requiredCheck_eq_true hp]

theorem create_user_passwordTooShort (s : UserService) (u e p : String)
    (hu : pyStrip u ≠ "") (he : pyStrip e ≠ "") (hp : pyStrip p ≠ "")
    (hlen : p.length < 6) :
    create_user s u e p = (.error .passwordTooShort, s) := by
  simp [create_user, requiredCheck_eq_false hu, requiredCheck_eq_false he,
    requiredCheck_eq_false hp, hlen]

theorem create_user_usernameExists (s : UserService) (u e p : String)
    (hu : pyStrip u ≠ "") (he : pyStrip e ≠ "") (hp : pyStrip p ≠ "")
    (hlen : 6 ≤ p.length)
    (hun : s.users.any (fun x => x.username == u) = true) :
    create_user s u e p = (.error .usernameExists, s) := by
  simp [create_user, requiredCheck_eq_false hu, requiredCheck_eq_false he,
    requiredCheck_eq_false hp, Nat.not_lt.2 hlen, hun]

theorem create_user_emailExists (s : UserService) (u e p : String)
    (hu : pyStrip u ≠ "") (he : pyStrip e ≠ "") (hp : pyStrip p ≠ "")
    (hlen : 6 ≤ p.length)
    (hun : s.users.any (fun x => x.username == u) = false)
    (hem : s.users.any (fun x => x.email == e) = true) :
    create_user s u e p = (.error .emailExists, s) := by
  simp [create_user, requiredCheck_eq_false hu, requiredCheck_eq_false he,
    requiredCheck_eq_false hp, Nat.not_lt.2 hlen, hun, hem]

theorem create_user_passes_validation (s : UserService) (u e p : String)
    (hu : pyStrip u ≠ "") (he : pyStrip e ≠ "") (hp : pyStrip p ≠ "")
    (hlen : 6 ≤ p.length)
    (hun : s.users.any (fun x => x.username == u) = false)
    (hem : s.users.any (fun x => x.email == e) = false) :
    create_user s u e p =
      (.error (.missingField "UserData" "email"),
       ⟨dictInsert s.users ⟨s.next_id, u, e, p⟩, s.next_id + 1⟩) := by
  simp [create_user, requiredCheck_eq_false hu, requiredCheck_eq_false he,
    requiredCheck_eq_false hp, Nat.not_lt.2 hlen, hun, hem, UserData.construct]

/-- The post-state of `create_user` is either untouched or the record
insertion performed after both uniqueness scans came back empty. -/
theorem create_user_state_cases (s : UserService) (u e p : String) :
    (create_user s u e p).2 = s ∨
    (s.users.any (fun x => x.username == u) = false ∧
     s.users.any (fun x => x.email == e) = false ∧
     (create_user s u e p).2 = ⟨dictInsert s.users ⟨s.next_id, u, e, p⟩, s.next_id + 1⟩) := by
  unfold create_user
  split
  · exact Or.inl rfl
  · split
    · exact Or.inl rfl
    · split
      · exact Or.inl rfl
      · split
        · exact Or.inl rfl
        · split
          · exact Or.inl rfl
          · split
            · exact Or.inl rfl
            · rename_i hun hem
              exact Or.inr ⟨by simpa using hun, by simpa using hem, rfl⟩

theorem update_user_email_notFound (s : UserService) (uid : Nat) (e : String)
    (h : s.users.any (fun x => x.id == uid) = false) :
    update_user_email s uid e = (.error .userNotFound, s) := by
  simp [update_user_email, h]

theorem update_user_email_conflict (s : UserService) (uid : Nat) (e : String)
    (hm : s.users.any (fun x => x.id == uid) = true)
    (hc : s.users.any (fun x => x.id != uid && x.email == e) = true) :
    update_user_email s uid e = (.error .emailExists, s) := by
  simp [update_user_email, hm, hc]

theorem update_user_email_success (s : UserService) (uid : Nat) (e : String)
    (hm : s.users.any (fun x => x.id == uid) = true)
    (hc : s.users.any (fun x => x.id != uid && x.email == e) = false) :
    update_user_email s uid e =
      (.ok (), ⟨s.users.map (fun x => if x.id == uid then { x with email := e } else x), s.next_id⟩) := by
  simp [update_user_email, hm, hc]

/-- The post-state of `update_user_email` is either untouched or the in-place
email overwrite performed after the collision scan came back empty. -/
theorem update_user_email_state_cases (s : UserService) (uid : Nat) (e : String) :
    (update_user_email s uid e).2 = s ∨
    (s.users.any (fun x => x.id != uid && x.email == e) = false ∧
     (update_user_email s uid e).2 =
       ⟨s.users.map (fun x => if x.id == uid then { x with email := e } else x), s.next_id⟩) := by
  unfold update_user_email
  split
  · exact Or.inl rfl
  · split
    · exact Or.inl rfl
    · rename_i hc
      exact Or.inr ⟨by simpa using hc, rfl⟩

theorem delete_user_notFound (s : UserService) (uid : Nat)
    (h : s.users.any (fun x => x.id == uid) = false) :
    delete_user s uid = (.error .userNotFound, s) := by
  simp [delete_user, h]

theorem delete_user_success (s : UserService) (uid : Nat)
    (hm : s.users.any (fun x => x.id == uid) = true) :
    delete_user s uid = (.ok (), ⟨s.users.filter (fun x => x.id != uid), s.next_id⟩) := by
  simp [delete_user, hm]

/-- The post-state of `delete_user` is either untouched or the removal. -/
theorem delete_user_state_cases (s : UserService) (uid : Nat) :
    (delete_user s uid).2 = s ∨
    (delete_user s uid).2 = ⟨s.users.filter (fun x => x.id != uid), s.next_id⟩ := by
  unfold delete_user
  split
  · exact Or.inl rfl
  · exact Or.inr rfl

theorem find_user_eq_none_iff (s : UserService) (uid : Nat) :
    s.users.find? (fun u => u.id == uid) = none ↔ uid ∉ idsOf s := by
  rw [List.find?_eq_none]
  simp only [idsOf, List.mem_map, not_exists, not_and, beq_iff_eq]

/-- `get_user_by_id` fails with NotFound exactly when the identifier is not
among the live records. -/
theorem get_user_by_id_notFound_iff (s : UserService) (uid : Nat) :
    get_user_by_id s uid = .error .userNotFound ↔ uid ∉ idsOf s := by
  unfold get_user_by_id
  rcases hf : s.users.find? (fun u => u.id == uid) with _ | u
  · rw [hf]
    simpa using (find_user_eq_none_iff s uid).1 hf
  · rw [hf]
    have h1 := List.mem_of_find?_eq_some hf
    have h3 : u.id = uid := by simpa using List.find?_some hf
    have hmem : uid ∈ idsOf s := h3 ▸ List.mem_map_of_mem User.id h1
    simp [UserData.construct, hmem]

/-! ### Invariant preservation -/

theorem any_id_eq_false_of_idBound {s : UserService} (h : IdBound s) :
    s.users.any (fun v => v.id == s.next_id) = false := by
  rw [List.any_eq_false]
  intro v hv
  simp only [beq_iff_eq]
  exact Nat.ne_of_lt (h v hv)

theorem dictInsert_eq_append {l : List User} {u : User}
    (h : l.any (fun v => v.id == u.id) = false) :
    dictInsert l u = l ++ [u] := by
  simp [dictInsert, h]

/-- A freed identifier: absent from the live records, below the counter, in a
state whose live identifiers are all below the counter. -/
def DeadId (i : Nat) (s : UserService) : Prop :=
  i ∉ idsOf s ∧ i < s.next_id ∧ IdBound s

theorem deadId_create {i : Nat} {s : UserService} (h : DeadId i s) (u e p : String) :
    DeadId i (create_user s u e p).2 := by
  obtain ⟨hni, hlt, hB⟩ := h
  rcases create_user_state_cases s u e p with hs | ⟨hun, hem, hs⟩
  · rw [hs]; exact ⟨hni, hlt, hB⟩
  · rw [hs, dictInsert_eq_append (any_id_eq_false_of_idBound hB)]
    refine ⟨?_, Nat.lt_succ_of_lt hlt, ?_⟩
    · intro hm
      simp only [idsOf, List.map_append, List.mem_append, List.map_cons, List.map_nil,
        List.mem_singleton] at hm
      rcases hm with hm | hm
      · exact hni hm
      · omega
    · intro v hv
      rcases List.mem_append.1 hv with hv | hv
      · exact Nat.lt_succ_of_lt (hB v hv)
      · simp only [List.mem_singleton] at hv
        subst hv
        exact Nat.lt_succ_self _

theorem deadId_update {i : Nat} {s : UserService} (h : DeadId i s) (uid : Nat) (e : String) :
    DeadId i (update_user_email s uid e).2 := by
  obtain ⟨hni, hlt, hB⟩ := h
  rcases update_user_email_state_cases s uid e with hs | ⟨-, hs⟩
  · rw [hs]; exact ⟨hni, hlt, hB⟩
  · rw [hs]
    refine ⟨?_, hlt, ?_⟩
    · intro hm
      obtain ⟨x, hx, hxi⟩ := List.mem_map.1 hm
      obtain ⟨y, hy, rfl⟩ := List.mem_map.1 hx
      refine hni ?_
      have hyi : y.id = i := by
        split at hxi <;> exact hxi
      exact hyi ▸ List.mem_map_of_mem User.id hy
    · intro v hv
      obtain ⟨y, hy, rfl⟩ := List.mem_map.1 hv
      have hyB := hB y hy
      split <;> exact hyB

theorem deadId_delete {i : Nat} {s : UserService} (h : DeadId i s) (uid : Nat) :
    DeadId i (delete_user s uid).2 := by
  obtain ⟨hni, hlt, hB⟩ := h
  rcases delete_user_state_cases s uid with hs | hs <;> rw [hs]
  · exact ⟨hni, hlt, hB⟩
  · refine ⟨?_, hlt, ?_⟩
    · intro hm
      obtain ⟨x, hx, hxi⟩ := List.mem_map.1 hm
      exact hni (hxi ▸ List.mem_map_of_mem User.id (List.mem_of_mem_filter hx))
    · intro v hv
      exact hB v (List.mem_of_mem_filter hv)

theorem deadId_applyOp {i : Nat} {s : UserService} {op : Op}
    (h : DeadId i s) (hop : op ≠ Op.reset) : DeadId i (applyOp s op) := by
  cases op with
  | create u e p => exact deadId_create h u e p
  | get uid => exact h
  | updateEmail uid e => exact deadId_update h uid e
  | delete uid => exact deadId_delete h uid
  | list a b c => exact h
  | reset => exact absurd rfl hop

/-- A freed identifier stays dead under any reset-free operation sequence. -/
theorem deadId_runOps {i : Nat} {s : UserService} {ops : List Op}
    (h : DeadId i s) (hops : Op.reset ∉ ops) : DeadId i (runOps s ops) := by
  induction ops generalizing s with
  | nil => exact h
  | cons op rest ih =>
    rw [runOps]
    have hop : op ≠ Op.reset := by
      intro he
      exact hops (by subst he; exact List.mem_cons_self _ _)
    exact ih (deadId_applyOp h hop) (fun hm => hops (List.mem_cons_of_mem op hm))

/-- Appending an element related to every existing element keeps a pairwise
relation. -/
theorem pairwise_append_singleton {α : Type} {R : α → α → Prop} {l : List α} {a : α}
    (hl : l.Pairwise R) (ha : ∀ x ∈ l, R x a) : (l ++ [a]).Pairwise R := by
  rw [List.pairwise_append]
  refine ⟨hl, List.pairwise_singleton _ _, ?_⟩
  intro x hx b hb
  simp only [List.mem_singleton] at hb
  subst hb
  exact ha x hx

theorem engineInv_init : EngineInv initService := by decide

theorem engineInv_create {s : UserService} (h : EngineInv s) (u e p : String) :
    EngineInv (create_user s u e p).2 := by
  obtain ⟨hB, hI, hU, hE⟩ := h
  rcases create_user_state_cases s u e p with hs | ⟨hun, hem, hs⟩
  · rw [hs]; exact ⟨hB, hI, hU, hE⟩
  · rw [hs, dictInsert_eq_append (any_id_eq_false_of_idBound hB)]
    have hun' : ∀ x ∈ s.users, x.username ≠ u := by
      intro x hx
      simpa using List.any_eq_false.1 hun x hx
    have hem' : ∀ x ∈ s.users, x.email ≠ e := by
      intro x hx
      simpa using List.any_eq_false.1 hem x hx
    refine ⟨?_, ?_, ?_, ?_⟩
    · intro v hv
      rcases List.mem_append.1 hv with hv | hv
      · exact Nat.lt_succ_of_lt (hB v hv)
      · simp only [List.mem_singleton] at hv
        subst hv
        exact Nat.lt_succ_self _
    · exact pairwise_append_singleton hI (fun a ha => Nat.ne_of_lt (hB a ha))
    · exact pairwise_append_singleton hU hun'
    · exact pairwise_append_singleton hE hem'

theorem engineInv_update {s : UserService} (h : EngineInv s) (uid : Nat) (e : String) :
    EngineInv (update_user_email s uid e).2 := by
  obtain ⟨hB, hI, hU, hE⟩ := h
  rcases update_user_email_state_cases s uid e with hs | ⟨hc, hs⟩
  · rw [hs]; exact ⟨hB, hI, hU, hE⟩
  · rw [hs]
    have hc' : ∀ x ∈ s.users, x.id ≠ uid → x.email ≠ e := by
      intro x hx hxid
      have hx' := List.any_eq_false.1 hc x hx
      simpa [hxid] using hx'
    refine ⟨?_, ?_, ?_, ?_⟩
    · intro v hv
      obtain ⟨y, hy, rfl⟩ := List.mem_map.1 hv
      have hyB := hB y hy
      split <;> exact hyB
    · refine List.pairwise_map.2 (hI.imp ?_)
      intro a b hab
      split <;> split <;> exact hab
    · refine List.pairwise_map.2 (hU.imp ?_)
      intro a b hab
      split <;> split <;> exact hab
    · refine List.pairwise_map.2 ((hI.and hE).imp_of_mem ?_)
      intro a b ha hb hab
      obtain ⟨hidab, hemab⟩ := hab
      by_cases ha' : a.id = uid
      · have hb' : b.id ≠ uid := fun hbe => hidab (ha'.trans hbe.symm)
        rw [if_pos (by simpa using ha'), if_neg (by simpa using hb')]
        exact fun hh => (hc' b hb hb') hh.symm
      · by_cases hb' : b.id = uid
        · rw [if_neg (by simpa using ha'), if_pos (by simpa using hb')]
          exact hc' a ha ha'
        · rw [if_neg (by simpa using ha'), if_neg (by simpa using hb')]
          exact hemab

theorem engineInv_delete {s : UserService} (h : EngineInv s) (uid : Nat) :
    EngineInv (delete_user s uid).2 := by
  obtain ⟨hB, hI, hU, hE⟩ := h
  rcases delete_user_state_cases s uid with hs | hs <;> rw [hs]
  · exact ⟨hB, hI, hU, hE⟩
  · exact ⟨fun v hv => hB v (List.mem_of_mem_filter hv),
      hI.sublist (List.filter_sublist _),
      hU.sublist (List.filter_sublist _),
      hE.sublist (List.filter_sublist _)⟩

theorem engineInv_applyOp {s : UserService} (h : EngineInv s) (op : Op) :
    EngineInv (applyOp s op) := by
  cases op with
  | create u e p => exact engineInv_create h u e p
  | get uid => exact h
  | updateEmail uid e => exact engineInv_update h uid e
  | delete uid => exact engineInv_delete h uid
  | list a b c => exact h
  | reset => exact engineInv_init

theorem engineInv_runOps {s : UserService} (h : EngineInv s) (ops : List Op) :
    EngineInv (runOps s ops) := by
  induction ops generalizing s with
  | nil => exact h
  | cons op rest ih =>
    rw [runOps]
    exact ih (engineInv_applyOp h op)

/-! ### Pagination and substring search -/

theorem take_min_length {α : Type} (l : List α) (k : Nat) :
    l.take (min k l.length) = l.take k := by
  rcases Nat.le_total k l.length with h | h
  · rw [Nat.min_eq_left h]
  · rw [Nat.min_eq_right h, List.take_length, List.take_of_length_le h]

/-- For a non-negative start and size, the CPython slice
`l[start : start+size]` is drop-then-take. -/
theorem pySlice_eq_drop_take {α : Type} (l : List α) (a b : Int)
    (ha : 0 ≤ a) (hb : 0 ≤ b) :
    pySlice l a (a + b) = (l.drop a.toNat).take b.toNat := by
  unfold pySlice pySliceIndex
  rw [if_neg (by omega), if_neg (by omega), Int.toNat_add ha hb, List.drop_take]
  rcases Nat.le_total a.toNat l.length with h | h
  · rw [Nat.min_eq_left h]
    have hmin : min (a.toNat + b.toNat) l.length - a.toNat
        = min b.toNat (l.length - a.toNat) := by omega
    rw [hmin, ← List.length_drop a.toNat l, take_min_length]
  · rw [Nat.min_eq_right h, Nat.min_eq_right (by omega), Nat.sub_self,
      List.take_zero, List.drop_eq_nil_of_le h, List.take_nil]

/-- `listInfix` decides contiguous-substring containment. -/
theorem listInfix_iff_infix (n h : List Char) :
    listInfix n h = true ↔ n <:+: h := by
  induction h with
  | nil =>
    rw [listInfix]
    simp [List.isEmpty_iff]
  | cons c t ih =>
    rw [listInfix]
    simp only [Bool.or_eq_true, List.isPrefixOf_iff_prefix, ih, List.infix_cons_iff]

/-- Python `n in h` on strings holds exactly when `n` occurs as a contiguous
substring of `h`: `h = pre ++ n ++ post` for some `pre`, `post`. -/
theorem pyIn_iff_infix (n h : String) :
    pyIn n h = true ↔ n.data <:+: h.data :=
  listInfix_iff_infix n.data h.data

/-! ### The claims -/

/-- Claim C1 (code-bug evidence): a fully valid create call on the seed
state does not succeed. The record is inserted and the counter incremented,
but the `UserData(id=..., username=...)` response construction then fails
because the `UserData` model declares `email` as a required field and the
call site omits it; the call therefore reports an error instead of
returning the id/username payload, even though the inserted record is live
(a subsequent get(6) finds it). -/
theorem create_valid_input_missing_email_bug :
    create_user initService "alice" "alice@example.com" "secret123"
      = (.error (.missingField "UserData" "email"),
         ⟨seedUsers ++ [⟨6, "alice", "alice@example.com", "secret123"⟩], 7⟩)
    ∧ get_user_by_id (create_user initService "alice" "alice@example.com" "secret123").2 6
      = .ok ⟨6, "alice", "alice@example.com"⟩ :=
  ⟨by decide, by decide⟩

/-- Claim C2 (code-bug evidence): create on valid input reports an error
and still the observable engine state — record map and counter — differs
from the pre-call state, so the error path of create is not atomic. -/
theorem create_error_mutates_state_bug :
    (∃ err, (create_user initService "bob" "bob@example.com" "secret123").1 = .error err)
    ∧ (create_user initService "bob" "bob@example.com" "secret123").2 ≠ initService
    ∧ (create_user initService "bob" "bob@example.com" "secret123").2.next_id = 7 :=
  ⟨⟨.missingField "UserData" "email", by decide⟩, by decide, by decide⟩

/-- Claim C3 counterexample: with an empty username and the short non-empty
password "123", create reports the username-required error, not the
password-too-short error, so the claim's "for every username and email"
universal fails as stated. -/
theorem create_short_password_not_first_cx :
    create_user initService "" "e@x.com" "123" = (.error .usernameRequired, initService)
    ∧ SvcErr.usernameRequired ≠ SvcErr.passwordTooShort :=
  ⟨by decide, by decide⟩

/-- Claim C3 (amended): validation is first-failure-wins in the fixed
source order — username required, email required, password required (each
treating whitespace-only as missing), password shorter than 6, username
exists, email exists. In particular, whenever username and email pass
their required checks and the password is not whitespace-only but has
length below 6, create fails with password-too-short against every state,
so no uniqueness check affects the outcome. -/
theorem create_validation_first_failure_order (s : UserService) (u e p : String) :
    (pyStrip u = "" → create_user s u e p = (.error .usernameRequired, s))
    ∧ (pyStrip u ≠ "" → pyStrip e = "" → create_user s u e p = (.error .emailRequired, s))
    ∧ (pyStrip u ≠ "" → pyStrip e ≠ "" → pyStrip p = "" →
        create_user s u e p = (.error .passwordRequired, s))
    ∧ (pyStrip u ≠ "" → pyStrip e ≠ "" → pyStrip p ≠ "" → p.length < 6 →
        create_user s u e p = (.error .passwordTooShort, s))
    ∧ (pyStrip u ≠ "" → pyStrip e ≠ "" → pyStrip p ≠ "" → 6 ≤ p.length →
        s.users.any (fun x => x.username == u) = true →
        create_user s u e p = (.error .usernameExists, s))
    ∧ (pyStrip u ≠ "" → pyStrip e ≠ "" → pyStrip p ≠ "" → 6 ≤ p.length →
        s.users.any (fun x => x.username == u) = false →
        s.users.any (fun x => x.email == e) = true →
        create_user s u e p = (.error .emailExists, s)) :=
  ⟨create_user_usernameRequired s u e p,
   create_user_emailRequired s u e p,
   create_user_passwordRequired s u e p,
   create_user_passwordTooShort s u e p,
   create_user_usernameExists s u e p,
   create_user_emailExists s u e p⟩

/-- Witness for C3's amended theorem: password "123" with valid username
and email gives password-too-short even though the username "test"
collides with the seed, showing the uniqueness scan does not run. -/
theorem create_validation_first_failure_order_witness :
    create_user initService "test" "e@x.com" "123" = (.error .passwordTooShort, initService) :=
  (create_validation_first_failure_order initService "test" "e@x.com" "123").2.2.2.1
    (by decide) (by decide) (by decide) (by decide)

/-- Claim C4 counterexample: duplicating the seed username "test" but
supplying the short password "123" yields the password-too-short
validation error, not the username-exists conflict, refuting "regardless
of which email and password are supplied". -/
theorem create_duplicate_username_cx :
    create_user initService "test" "x@y.com" "123" = (.error .passwordTooShort, initService)
    ∧ SvcErr.passwordTooShort ≠ SvcErr.usernameExists :=
  ⟨by decide, by decide⟩

/-- Claim C4 (amended): for every email and password that pass the earlier
validation checks (email not whitespace-only, password not whitespace-only
and of length at least 6), create("test", email, password) on the seed
state fails with the username-exists conflict and leaves the state
unchanged. -/
theorem create_duplicate_username_conflict (e p : String)
    (he : pyStrip e ≠ "") (hp : pyStrip p ≠ "") (hlen : 6 ≤ p.length) :
    create_user initService "test" e p = (.error .usernameExists, initService) :=
  create_user_usernameExists initService "test" e p (by decide) he hp hlen (by decide)

/-- Witness for C4's amended theorem. -/
theorem create_duplicate_username_conflict_witness :
    create_user initService "test" "x@y.com" "longpass" = (.error .usernameExists, initService) :=
  create_duplicate_username_conflict "x@y.com" "longpass" (by decide) (by decide) (by decide)

/-- Claim C5 counterexample: delete(1) succeeds on the seed state, but
after a subsequent reset operation, get(1) succeeds again with the seed
record, so the claim's "under any sequence of subsequent operations
including reset" fails. -/
theorem delete_then_reset_get_cx :
    (delete_user initService 1).1 = .ok ()
    ∧ get_user_by_id (runOps (delete_user initService 1).2 [Op.reset]) 1
        = .ok ⟨1, "test", "t@x.com"⟩ :=
  ⟨by decide, by decide⟩

/-- Claim C5 (amended): in a state whose live identifiers all lie below the
counter, after a successful delete(id), get(id) immediately fails with
NotFound, and under every reset-free sequence of subsequent operations
get(id) keeps failing with NotFound and the identifier is never live again
— in particular no later create assigns it. Reset restores the seed
identifiers, as the counterexample shows. -/
theorem delete_get_notFound_without_reset (s : UserService) (uid : Nat) (ops : List Op)
    (hB : IdBound s) (hdel : (delete_user s uid).1 = .ok ())
    (hnr : Op.reset ∉ ops) :
    get_user_by_id (delete_user s uid).2 uid = .error .userNotFound
    ∧ get_user_by_id (runOps (delete_user s uid).2 ops) uid = .error .userNotFound
    ∧ uid ∉ idsOf (runOps (delete_user s uid).2 ops) := by
  have hm : s.users.any (fun x => x.id == uid) = true := by
    cases hb : s.users.any (fun x => x.id == uid) with
    | false =>
        rw [delete_user_notFound s uid hb] at hdel
        simp at hdel
    | true => rfl
  have hpost : (delete_user s uid).2 = ⟨s.users.filter (fun x => x.id != uid), s.next_id⟩ := by
    rw [delete_user_success s uid hm]
  have hdead : DeadId uid (delete_user s uid).2 := by
    rw [hpost]
    refine ⟨?_, ?_, ?_⟩
    · intro hmem
      obtain ⟨x, hx, hxi⟩ := List.mem_map.1 hmem
      rw [List.mem_filter] at hx
      have hne := hx.2
      simp only [bne_iff_ne, ne_eq] at hne
      exact hne hxi
    · rw [List.any_eq_true] at hm
      obtain ⟨x, hx, hxe⟩ := hm
      have hxid : x.id = uid := by simpa using hxe
      exact hxid ▸ hB x hx
    · intro v hv
      exact hB v (List.mem_of_mem_filter hv)
  obtain ⟨hd1, hd2, hd3⟩ := hdead
  have hrun := deadId_runOps ⟨hd1, hd2, hd3⟩ hnr
  obtain ⟨hr1, hr2, hr3⟩ := hrun
  exact ⟨(get_user_by_id_notFound_iff _ uid).2 hd1,
    (get_user_by_id_notFound_iff _ uid).2 hr1, hr1⟩

/-- Witness for C5's amended theorem: delete(3) on the seed, then a
reset-free pair of operations (a create and another delete). -/
theorem delete_get_notFound_without_reset_witness :
    get_user_by_id (delete_user initService 3).2 3 = .error .userNotFound
    ∧ get_user_by_id (runOps (delete_user initService 3).2
        [Op.create "alice" "a@b.com" "secret123", Op.delete 2]) 3 = .error .userNotFound
    ∧ 3 ∉ idsOf (runOps (delete_user initService 3).2
        [Op.create "alice" "a@b.com" "secret123", Op.delete 2]) :=
  delete_get_notFound_without_reset initService 3
    [Op.create "alice" "a@b.com" "secret123", Op.delete 2]
    (by decide) (by decide) (by decide)

/-- Claim C6: starting from the seed state, every sequence of engine
operations preserves the invariant that no two live records share a
username and no two live records share an email, under case-sensitive
exact-match comparison. -/
theorem ops_preserve_uniqueness (ops : List Op) :
    NoDupUsernames (runOps initService ops) ∧ NoDupEmails (runOps initService ops) :=
  ⟨(engineInv_runOps engineInv_init ops).2.2.1,
   (engineInv_runOps engineInv_init ops).2.2.2⟩

/-- Claim C7: list skips (page-1)*size of the filtered records and takes up
to size of the remainder, with total the filtered count; on the seed,
page 1 of size 5 returns all five records in ascending id order, page 2 of
size 3 returns exactly the records with ids 4 and 5, and an offset beyond
the filtered count yields an empty item list rather than an error. -/
theorem list_pagination_spec (page size : Int) (hp : 1 ≤ page) (hs : 0 ≤ size) :
    (∀ (s : UserService) (kw : Option String),
        get_users_list s page size kw =
          { total := (filteredUsers s kw).length,
            list := (((filteredUsers s kw).drop ((page - 1) * size).toNat).take size.toNat).map
              (fun u => ⟨u.id, u.username, u.email⟩) })
    ∧ get_users_list initService 1 5 none =
        ⟨5, [⟨1, "test", "t@x.com"⟩, ⟨2, "john_doe", "john@example.com"⟩,
             ⟨3, "jane_smith", "jane@example.com"⟩, ⟨4, "admin", "admin@company.com"⟩,
             ⟨5, "demo_user", "demo@test.com"⟩]⟩
    ∧ get_users_list initService 2 3 none
        = ⟨5, [⟨4, "admin", "admin@company.com"⟩, ⟨5, "demo_user", "demo@test.com"⟩]⟩
    ∧ get_users_list initService 100 10 none = ⟨5, []⟩ := by
  refine ⟨?_, by decide, by decide, by decide⟩
  intro s kw
  unfold get_users_list
  dsimp only
  rw [pySlice_eq_drop_take (filteredUsers s kw) ((page - 1) * size) size
    (mul_nonneg (by omega) hs) hs]

/-- Witness for C7's theorem: page 2 of size 3 against the seed. -/
theorem list_pagination_spec_witness :
    get_users_list initService 2 3 none
      = ⟨5, [⟨4, "admin", "admin@company.com"⟩, ⟨5, "demo_user", "demo@test.com"⟩]⟩ :=
  (list_pagination_spec 2 3 (by decide) (by decide)).2.2.1

/-- Claim C8: with a non-empty keyword, list filters the live records to
those whose lowered username or lowered email contains the lowered keyword
as a substring (`pyIn` being exactly contiguous-substring containment), and
total counts that filtered set before pagination; on the seed, keyword
"john" returns exactly the john_doe record. -/
theorem list_keyword_filter_spec (s : UserService) (kw : String) (page size : Int)
    (hk : kw ≠ "") :
    filteredUsers s (some kw) = s.users.filter
        (fun u => pyIn (pyLower kw) (pyLower u.username) || pyIn (pyLower kw) (pyLower u.email))
    ∧ (get_users_list s page size (some kw)).total
        = (s.users.filter (fun u =>
            pyIn (pyLower kw) (pyLower u.username) || pyIn (pyLower kw) (pyLower u.email))).length
    ∧ (∀ n h : String, pyIn n h = true ↔ n.data <:+: h.data)
    ∧ get_users_list initService 1 10 (some "john")
        = ⟨1, [⟨2, "john_doe", "john@example.com"⟩]⟩ := by
  have hf : filteredUsers s (some kw) = s.users.filter
      (fun u => pyIn (pyLower kw) (pyLower u.username) || pyIn (pyLower kw) (pyLower u.email)) := by
    simp [filteredUsers, hk]
  refine ⟨hf, ?_, pyIn_iff_infix, by decide⟩
  unfold get_users_list
  dsimp only
  rw [hf]

/-- Witness for C8's theorem at the seed state with keyword "john". -/
theorem list_keyword_filter_spec_witness :
    get_users_list initService 1 10 (some "john")
      = ⟨1, [⟨2, "john_doe", "john@example.com"⟩]⟩ :=
  (list_keyword_filter_spec initService "john" 1 10 (by decide)).2.2.2

/-- Claim C9: for a live id, updateEmail fails with the email-exists
conflict exactly when another record (the target excluded from the scan)
holds the same email, and then the whole state — hence the target's email —
is unchanged; without such a collision it succeeds, rewriting exactly the
target record's email and leaving every other record, every other field,
and the counter unchanged; in particular, under email uniqueness, updating
a record to its own current email succeeds. -/
theorem update_email_conflict_spec (s : UserService) (uid : Nat) (e : String)
    (hm : s.users.any (fun x => x.id == uid) = true) :
    (s.users.any (fun x => x.id != uid && x.email == e) = true →
        update_user_email s uid e = (.error .emailExists, s))
    ∧ (s.users.any (fun x => x.id != uid && x.email == e) = false →
        update_user_email s uid e =
          (.ok (), ⟨s.users.map (fun x => if x.id == uid then { x with email := e } else x),
            s.next_id⟩))
    ∧ (NoDupEmails s → (∃ t ∈ s.users, t.id = uid ∧ t.email = e) →
        (update_user_email s uid e).1 = .ok ()) := by
  refine ⟨update_user_email_conflict s uid e hm, update_user_email_success s uid e hm, ?_⟩
  rintro hE ⟨t, ht, htid, hte⟩
  have hc : s.users.any (fun x => x.id != uid && x.email == e) = false := by
    rw [List.any_eq_false]
    intro x hx
    simp only [Bool.and_eq_true, bne_iff_ne, ne_eq, beq_iff_eq, not_and]
    intro hxid hxe
    have hxt : x ≠ t := fun hq => hxid (by rw [hq, htid])
    have hne := List.Pairwise.forall (l := s.users)
      (fun a b hab => Ne.symm hab) hE hx ht hxt
    exact hne (hxe.trans hte.symm)
  rw [update_user_email_success s uid e hm hc]

/-- Witness for C9's theorem: updating seed record 2 to seed record 1's
email "t@x.com" conflicts and leaves the state unchanged. -/
theorem update_email_conflict_spec_witness :
    update_user_email initService 2 "t@x.com" = (.error .emailExists, initService) :=
  (update_email_conflict_spec initService 2 "t@x.com" (by decide)).1 (by decide)

/-- Claim C10: create treats whitespace-only input as missing — a
whitespace-only username, email or password fails with the corresponding
required error, and a whitespace-only password of length 6 or more is
still rejected as required rather than reaching the length check — while
the length check counts whitespace characters of a mixed password, so any
password that is not whitespace-only with length at least 6 passes both
password checks. -/
theorem create_whitespace_required_spec (s : UserService) (u e p : String) :
    (pyStrip u = "" → create_user s u e p = (.error .usernameRequired, s))
    ∧ (pyStrip u ≠ "" → pyStrip e = "" → create_user s u e p = (.error .emailRequired, s))
    ∧ (pyStrip u ≠ "" → pyStrip e ≠ "" → pyStrip p = "" →
        create_user s u e p = (.error .passwordRequired, s))
    ∧ (pyStrip u ≠ "" → pyStrip e ≠ "" → pyStrip p ≠ "" → p.length < 6 →
        create_user s u e p = (.error .passwordTooShort, s))
    ∧ (pyStrip u ≠ "" → pyStrip e ≠ "" → pyStrip p ≠ "" → 6 ≤ p.length →
        (create_user s u e p).1 ≠ .error .passwordRequired
        ∧ (create_user s u e p).1 ≠ .error .passwordTooShort) := by
  refine ⟨create_user_usernameRequired s u e p, create_user_emailRequired s u e p,
    create_user_passwordRequired s u e p, create_user_passwordTooShort s u e p, ?_⟩
  intro hu he hp hlen
  cases hb1 : s.users.any (fun x => x.username == u) with
  | true =>
      rw [create_user_usernameExists s u e p hu he hp hlen hb1]
      exact ⟨by simp, by simp⟩
  | false =>
      cases hb2 : s.users.any (fun x => x.email == e) with
      | true =>
          rw [create_user_emailExists s u e p hu he hp hlen hb1 hb2]
          exact ⟨by simp, by simp⟩
      | false =>
          rw [create_user_passes_validation s u e p hu he hp hlen hb1 hb2]
          exact ⟨by simp, by simp⟩

/-- Witness for C10's theorem: a six-space password is rejected as
required, not as too short. -/
theorem create_whitespace_required_spec_witness :
    create_user initService "u1" "e@x.com" "      " = (.error .passwordRequired, initService) :=
  (create_whitespace_required_spec initService "u1" "e@x.com" "      ").2.2.1
    (by decide) (by decide) (by decide)
